import Mathlib

/-!
Verification of the stream-driven status aggregation engine
(`source/solution/application/metrics/status_controller.py`).

The development shallowly embeds the controller:
* a model of Python JSON values and of `json.dumps(..., sort_keys=True)`
  canonical serialization (the serializer itself is Python stdlib, modelled
  from the spec's canonical-serialization contract),
* SHA-256 over byte lists (Nat arithmetic mod 2^32, per FIPS 180-4, as used
  through `hashlib.sha256(...).hexdigest()`),
* the idempotency-token generator `_generate_client_request_token`,
* the transition classifier / metric accumulator
  `increase_archive_status_metric_counter` and the batch driver
  `handle_archive_status_changed`,
* the committer decision logic of `update_metric_query`.
-/

/-! ## Python JSON values and canonical serialization -/

/-- A Python value that can appear in an event record handed to
`json.dumps`: `None`, `bool`, `int`, `str`, `list`, `dict`. -/
inductive PyJson where
  | null : PyJson
  | bool : Bool → PyJson
  | int : Int → PyJson
  | str : String → PyJson
  | arr : List PyJson → PyJson
  | obj : List (String × PyJson) → PyJson
deriving Repr

/-- JSON string escaping for the characters that require it. -/
def escapeChar (c : Char) : String :=
  if c = '\\' then "\\\\"
  else if c = '"' then "\\\""
  else String.singleton c

/-- Serialize a Python string as a JSON string literal. -/
def dumpString (s : String) : String :=
  "\"" ++ String.join (s.data.map escapeChar) ++ "\""

/-- Key comparison used by `sort_keys=True`: ordering of the pair's key. -/
def keyLe (a b : String × String) : Bool := decide (a.1 ≤ b.1)

mutual

/-- Modelled from the spec: canonical serialization of the batch
(`json.dumps(records, sort_keys=True)`); the stdlib serializer is not part of
the repository.  Objects are rendered with their key/value pairs sorted by
key (stable key ordering), arrays in order, with the default
`", "` and `": "` separators. -/
def dumps : PyJson → String
  | .null => "null"
  | .bool true => "true"
  | .bool false => "false"
  | .int n => toString n
  | .str s => dumpString s
  | .arr xs => "[" ++ String.intercalate ", " (dumpsList xs) ++ "]"
  | .obj kvs =>
      "\x7b" ++ String.intercalate ", "
        (((dumpsPairs kvs).mergeSort keyLe).map (fun p => dumpString p.1 ++ ": " ++ p.2)) ++
      "\x7d"

/-- Serialize each element of a JSON array. -/
def dumpsList : List PyJson → List String
  | [] => []
  | x :: xs => dumps x :: dumpsList xs

/-- Serialize the values of an object's key/value pairs, keeping the keys. -/
def dumpsPairs : List (String × PyJson) → List (String × String)
  | [] => []
  | (k, v) :: rest => (k, dumps v) :: dumpsPairs rest

end

/-! ## SHA-256 (FIPS 180-4) over byte lists, words as `Nat` mod 2^32 -/

/-- 2^32, the word modulus. -/
def MOD32 : Nat := 4294967296

/-- Bitwise complement within a 32-bit word (inputs are kept below 2^32). -/
def not32 (a : Nat) : Nat := 4294967295 ^^^ a

/-- Right rotation of a 32-bit word. -/
def rotr32 (x n : Nat) : Nat := ((x >>> n) ||| (x <<< (32 - n))) % MOD32

/-- The eight working variables / hash state of SHA-256. -/
structure Hash8 where
  a : Nat
  b : Nat
  c : Nat
  d : Nat
  e : Nat
  f : Nat
  g : Nat
  h : Nat
deriving Repr, DecidableEq

/-- SHA-256 round constants. -/
def sha256K : List Nat :=
  [1116352408, 1899447441, 3049323471, 3921009573,
   961987163, 1508970993, 2453635748, 2870763221,
   3624381080, 310598401, 607225278, 1426881987,
   1925078388, 2162078206, 2614888103, 3248222580,
   3835390401, 4022224774, 264347078, 604807628,
   770255983, 1249150122, 1555081692, 1996064986,
   2554220882, 2821834349, 2952996808, 3210313671,
   3336571891, 3584528711, 113926993, 338241895,
   666307205, 773529912, 1294757372, 1396182291,
   1695183700, 1986661051, 2177026350, 2456956037,
   2730485921, 2820302411, 3259730800, 3345764771,
   3516065817, 3600352804, 4094571909, 275423344,
   430227734, 506948616, 659060556, 883997877,
   958139571, 1322822218, 1537002063, 1747873779,
   1955562222, 2024104815, 2227730452, 2361852424,
   2428436474, 2756734187, 3204031479, 3329325298]

/-- SHA-256 initial hash value. -/
def sha256H0 : Hash8 :=
  ⟨1779033703, 3144134277, 1013904242, 2773480762,
   1359893119, 2600822924, 528734635, 1541459225⟩

/-- One message-schedule extension step: append `w16 + s0 + w7 + s1`. -/
def scheduleStep (ws : List Nat) : List Nat :=
  let i := ws.length
  let w15 := ws.getD (i - 15) 0
  let w2 := ws.getD (i - 2) 0
  let w16 := ws.getD (i - 16) 0
  let w7 := ws.getD (i - 7) 0
  let s0 := (rotr32 w15 7) ^^^ (rotr32 w15 18) ^^^ (w15 >>> 3)
  let s1 := (rotr32 w2 17) ^^^ (rotr32 w2 19) ^^^ (w2 >>> 10)
  ws ++ [(w16 + s0 + w7 + s1) % MOD32]

/-- Iterate the message-schedule extension `n` times. -/
def buildSchedule (ws : List Nat) : Nat → List Nat
  | 0 => ws
  | n + 1 => buildSchedule (scheduleStep ws) n

/-- One SHA-256 compression round, consuming a `(k, w)` constant/word pair. -/
def roundStep (st : Hash8) (kw : Nat × Nat) : Hash8 :=
  let S1 := (rotr32 st.e 6) ^^^ (rotr32 st.e 11) ^^^ (rotr32 st.e 25)
  let ch := (st.e &&& st.f) ^^^ ((not32 st.e) &&& st.g)
  let temp1 := (st.h + S1 + ch + kw.1 + kw.2) % MOD32
  let S0 := (rotr32 st.a 2) ^^^ (rotr32 st.a 13) ^^^ (rotr32 st.a 22)
  let maj := (st.a &&& st.b) ^^^ (st.a &&& st.c) ^^^ (st.b &&& st.c)
  let temp2 := (S0 + maj) % MOD32
  ⟨(temp1 + temp2) % MOD32, st.a, st.b, st.c, (st.d + temp1) % MOD32, st.e, st.f, st.g⟩

/-- Group bytes into big-endian 32-bit words. -/
def bytesToWords : List Nat → List Nat
  | b0 :: b1 :: b2 :: b3 :: rest =>
      (b0 * 16777216 + b1 * 65536 + b2 * 256 + b3) :: bytesToWords rest
  | _ => []

/-- Compress one 64-byte chunk into the hash state. -/
def compressChunk (hv : Hash8) (chunk : List Nat) : Hash8 :=
  let ws := buildSchedule (bytesToWords chunk) 48
  let st := (sha256K.zip ws).foldl roundStep hv
  ⟨(hv.a + st.a) % MOD32, (hv.b + st.b) % MOD32, (hv.c + st.c) % MOD32, (hv.d + st.d) % MOD32,
   (hv.e + st.e) % MOD32, (hv.f + st.f) % MOD32, (hv.g + st.g) % MOD32, (hv.h + st.h) % MOD32⟩

/-- Fold the compression function over consecutive 64-byte chunks. -/
def processChunks (hv : Hash8) (bytes : List Nat) : Hash8 :=
  match bytes with
  | [] => hv
  | b :: rest => processChunks (compressChunk hv ((b :: rest).take 64)) ((b :: rest).drop 64)
termination_by bytes.length
decreasing_by
  simp only [List.length_drop, List.length_cons]
  omega

/-- Big-endian 8-byte encoding of the message bit length. -/
def bytesBE8 (n : Nat) : List Nat :=
  [n / 72057594037927936 % 256, n / 281474976710656 % 256, n / 1099511627776 % 256,
   n / 4294967296 % 256, n / 16777216 % 256, n / 65536 % 256, n / 256 % 256, n % 256]

/-- SHA-256 padding: a `0x80` byte, zeros to 56 mod 64, then the bit length. -/
def padMessage (msg : List Nat) : List Nat :=
  msg ++ [128] ++ List.replicate ((119 - msg.length % 64) % 64) 0 ++ bytesBE8 (msg.length * 8)

/-- Big-endian bytes of one 32-bit word. -/
def wordBytes (w : Nat) : List Nat := [w / 16777216 % 256, w / 65536 % 256, w / 256 % 256, w % 256]

/-- The 32-byte SHA-256 digest of a byte string. -/
def sha256Bytes (msg : List Nat) : List Nat :=
  let hv := processChunks sha256H0 (padMessage msg)
  wordBytes hv.a ++ wordBytes hv.b ++ wordBytes hv.c ++ wordBytes hv.d ++
  wordBytes hv.e ++ wordBytes hv.f ++ wordBytes hv.g ++ wordBytes hv.h

/-- Lowercase hex digit. -/
def hexChar (n : Nat) : Char := "0123456789abcdef".data.getD n '0'

/-- Two hex characters of one byte. -/
def byteHex (b : Nat) : List Char := [hexChar (b / 16), hexChar (b % 16)]

/-- `hashlib.sha256(bytes).hexdigest()`: the 64-character lowercase hex digest. -/
def sha256HexDigest (msg : List Nat) : String := ⟨((sha256Bytes msg).map byteHex).flatten⟩

/-- UTF-8 encoding of one character (`str.encode()`), as byte values. -/
def utf8EncodeChar (c : Char) : List Nat :=
  let n := c.toNat
  if n < 128 then [n]
  else if n < 2048 then [192 + n / 64, 128 + n % 64]
  else if n < 65536 then [224 + n / 4096, 128 + n / 64 % 64, 128 + n % 64]
  else [240 + n / 262144, 128 + n / 4096 % 64, 128 + n / 64 % 64, 128 + n % 64]

/-- UTF-8 encoding of a string (`str.encode()`), as byte values. -/
def utf8Bytes (s : String) : List Nat := (s.data.map utf8EncodeChar).flatten

/-- Python's `token[::2]`: every second character, starting at index 0. -/
def everyOtherChar : List Char → List Char
  | [] => []
  | [c] => [c]
  | c :: _ :: rest => c :: everyOtherChar rest

/-- `StatusMetricController._generate_client_request_token`: SHA-256 hex digest
of the canonically serialized records, then every second character of the
digest followed by its last four characters. -/
def generateClientRequestToken (records : List PyJson) : String :=
  let token := sha256HexDigest (utf8Bytes (dumps (.arr records)))
  ⟨everyOtherChar token.data ++ token.data.drop (token.data.length - 4)⟩

/-! ## The status metric controller -/

/-- Modelled from the spec: the eligible record kind
(`GlacierJobType.ARCHIVE_RETRIEVAL`; the enum's source is not under `src/`).
Only equality with a snapshot's `retrieval_type` matters. -/
def ARCHIVE_RETRIEVAL : String := "archive-retrieval"

namespace StatusCode

/-- Modelled from the spec: `GlacierTransferModel.StatusCode.REQUESTED`
(enum source not under `src/`); its value composes with `_count` / `_size`
into the `requested_count` / `requested_size` keys of `_initial_metric`. -/
def REQUESTED : String := "requested"

/-- Modelled from the spec: `GlacierTransferModel.StatusCode.STAGED`
(enum source not under `src/`), value fixed by `_initial_metric`'s keys. -/
def STAGED : String := "staged"

/-- Modelled from the spec: `GlacierTransferModel.StatusCode.DOWNLOADED`
(enum source not under `src/`), value fixed by `_initial_metric`'s keys. -/
def DOWNLOADED : String := "downloaded"

end StatusCode

/-- Modelled from the spec: the parsed `GlacierTransferMetadata` view of a
DynamoDB image (§3 TransferRecordSnapshot); the parser
`GlacierTransferMetadata.parse` is not under `src/`.  `size` and `archive_id`
are optional since the classifier checks them for presence/truthiness. -/
structure Snapshot where
  workflow_run : String
  retrieval_type : String
  size : Option Int
  archive_id : Option String
  retrieve_status : String
deriving DecidableEq, Repr

/-- The six per-workflow counters of `_initial_metric`. -/
structure Metrics where
  requested_count : Int
  requested_size : Int
  staged_count : Int
  staged_size : Int
  downloaded_count : Int
  downloaded_size : Int
deriving DecidableEq, Repr

/-- `StatusMetricController._initial_metric`: all six counters zero. -/
def initialMetric : Metrics := ⟨0, 0, 0, 0, 0, 0⟩

/-- A diagnostic emitted while classifying one event (logging payloads kept
as structured data rather than formatted text). -/
inductive LogEvent where
  | errorMetadataReadFailed (snapshot : Snapshot)
  | debugHandledStatus (archivePk : String) (newStatus : String)
  | infoUnhandledStatus (archivePk : String) (newStatus : String)
deriving DecidableEq, Repr

/-- Modelled from the spec: the store key derived from the workflow run and
the archive id (`GlacierTransferModel(...).key["pk"]`, whose source is not
under `src/`); an opaque stable identifier used only inside diagnostics. -/
def glacierTransferPk (workflow_run glacier_object_id : String) : String :=
  workflow_run ++ "|" ++ glacier_object_id

/-- Python truthiness of an optional integer: `None` and `0` are falsy. -/
def optIntTruthy : Option Int → Bool
  | none => false
  | some n => n != 0

/-- Python truthiness of an optional string: `None` and `""` are falsy. -/
def optStrTruthy : Option String → Bool
  | none => false
  | some s => s != ""

/-- Python's `str.split(sep)` for a one-character separator, over the
character list: splitting `""` gives `[""]`, adjacent separators give empty
segments. -/
def splitOnChar (sep : Char) : List Char → List (List Char)
  | [] => [[]]
  | c :: rest =>
    let r := splitOnChar sep rest
    if c = sep then [] :: r
    else
      match r with
      | [] => [[c]]
      | g :: gs => (c :: g) :: gs

/-- `status.split("/")[-1]`: the last `/`-separated segment. -/
def lastPathSegment (s : String) : String := ⟨(splitOnChar '/' s.data).getLastD []⟩

/-- The fixed `status_mapping` transition table
(`(old_status, new_status) ↦ result_status`). -/
def statusMapping (old : Option String) (new : String) : Option String :=
  if old = none ∧ new = StatusCode.REQUESTED then some StatusCode.REQUESTED
  else if old = some StatusCode.REQUESTED ∧ new = StatusCode.STAGED then some StatusCode.STAGED
  else if old = some StatusCode.STAGED ∧ new = StatusCode.DOWNLOADED then some StatusCode.DOWNLOADED
  else none

/-- The two `+=` lines: add 1 to `{result_status}_count` and the snapshot's
size to `{result_status}_size`, leaving the other counters as they are. -/
def increaseMetric (m : Metrics) (result_status : String) (size : Int) : Metrics :=
  if result_status = StatusCode.REQUESTED then
    { m with requested_count := m.requested_count + 1, requested_size := m.requested_size + size }
  else if result_status = StatusCode.STAGED then
    { m with staged_count := m.staged_count + 1, staged_size := m.staged_size + size }
  else if result_status = StatusCode.DOWNLOADED then
    { m with downloaded_count := m.downloaded_count + 1, downloaded_size := m.downloaded_size + size }
  else m

/-- Point update of the per-workflow metric map. -/
def setMetric (f : String → Metrics) (w : String) (m : Metrics) : String → Metrics :=
  fun x => if x = w then m else f x

/-- The controller's mutable state: the workflow runs touched so far (the
`defaultdict`'s key set, in insertion order), the per-workflow counters
(untouched runs sit at `_initial_metric`), `counted_logs`, and the
diagnostics emitted so far. -/
structure ControllerState where
  keys : List String
  metrics : String → Metrics
  counted_logs : List String
  logs : List LogEvent

/-- `StatusMetricController.increase_archive_status_metric_counter`:
skip non-archive-retrieval records; error-skip records with falsy size or
archive id; otherwise look up the `(old_status, new_status)` transition and,
when recognized, count it for the record's workflow run. -/
def increaseArchiveStatusMetricCounter (st : ControllerState) (new_image : Snapshot)
    (old_image : Option Snapshot) : ControllerState :=
  let new_metadata := new_image
  let workflow_run := new_metadata.workflow_run
  if new_metadata.retrieval_type ≠ ARCHIVE_RETRIEVAL then st
  else if !optIntTruthy new_metadata.size || !optStrTruthy new_metadata.archive_id then
    { st with logs := st.logs ++ [LogEvent.errorMetadataReadFailed new_metadata] }
  else
    let new_status := lastPathSegment new_metadata.retrieve_status
    let old_status := old_image.map (fun o => lastPathSegment o.retrieve_status)
    let archive_id := glacierTransferPk workflow_run (new_metadata.archive_id.getD "")
    match statusMapping old_status new_status with
    | some result_status =>
        { keys := if workflow_run ∈ st.keys then st.keys else st.keys ++ [workflow_run]
          metrics := setMetric st.metrics workflow_run
            (increaseMetric (st.metrics workflow_run) result_status (new_metadata.size.getD 0))
          counted_logs := st.counted_logs ++
            ["Archive:" ++ archive_id ++ " - counted_status:" ++ new_status]
          logs := st.logs ++ [LogEvent.debugHandledStatus archive_id new_status] }
    | none => { st with logs := st.logs ++ [LogEvent.infoUnhandledStatus archive_id new_status] }

/-- One change-data-capture record as consumed by
`handle_archive_status_changed`: its `eventSource`, `eventName`, and the
parsed `NewImage` / optional `OldImage` snapshots. -/
structure StreamRecord where
  eventSource : String
  eventName : String
  newImage : Snapshot
  oldImage : Option Snapshot
deriving DecidableEq, Repr

/-- The per-record dispatch of `handle_archive_status_changed`: only
`aws:dynamodb` records are looked at; `INSERT` classifies the new image with
no before-snapshot, `MODIFY` classifies new against old; all other event
names are ignored. -/
def processRecord (st : ControllerState) (r : StreamRecord) : ControllerState :=
  if r.eventSource = "aws:dynamodb" then
    if r.eventName = "INSERT" then
      increaseArchiveStatusMetricCounter st r.newImage none
    else if r.eventName = "MODIFY" then
      increaseArchiveStatusMetricCounter st r.newImage r.oldImage
    else st
  else st

/-- The controller's state as built in `__init__`: no workflow run touched,
every delta at `_initial_metric`, no logs. -/
def initialControllerState : ControllerState :=
  { keys := [], metrics := fun _ => initialMetric, counted_logs := [], logs := [] }

/-- The classification/accumulation fold of `handle_archive_status_changed`
(the loop body, before `update_metric_query`). -/
def handleArchiveStatusChanged (records : List StreamRecord) : ControllerState :=
  records.foldl processRecord initialControllerState

/-- One `Update` entry of the DynamoDB transaction: the workflow-run key and
the six additive `ADD` attribute/value pairs, in the order the loop in
`update_metric_query` emits them. -/
structure TransactUpdate where
  workflowRun : String
  adds : List (String × Int)
deriving DecidableEq, Repr

/-- The six `attribute_type _ attribute_status` pairs of one update, with the
values read from that workflow run's counters. -/
def metricAttributePairs (m : Metrics) : List (String × Int) :=
  [("count_requested", m.requested_count), ("size_requested", m.requested_size),
   ("count_staged", m.staged_count), ("size_staged", m.staged_size),
   ("count_downloaded", m.downloaded_count), ("size_downloaded", m.downloaded_size)]

/-- The `transact_items` list: one additive update per touched workflow run,
in insertion order. -/
def buildTransactItems (keys : List String) (metrics : String → Metrics) : List TransactUpdate :=
  keys.map (fun w => ⟨w, metricAttributePairs (metrics w)⟩)

/-- What `update_metric_query` submits to the store: either nothing, or one
atomic `transact_write_items` call carrying the idempotency token. -/
inductive CommitAction where
  | noSubmission
  | submitTransaction (items : List TransactUpdate) (clientRequestToken : String)
deriving DecidableEq, Repr

/-- The store-submission decision of `update_metric_query`: nothing happens
for an empty batch (`if self.records`), and no transaction is submitted when
`transact_items` is empty (`if transact_items`). -/
def updateMetricQuery (records : List StreamRecord) (st : ControllerState)
    (token : String) : CommitAction :=
  if records = [] then CommitAction.noSubmission
  else
    let items := buildTransactItems st.keys st.metrics
    if items = [] then CommitAction.noSubmission
    else CommitAction.submitTransaction items token

/-! ## The pure classifier view of one step -/

/-- The spec's §4.2 classifier contract, read off the source: the
`(workflowRun, countedStatus, size)` triple a snapshot pair contributes, or
`none` for skipped records. -/
def classifySnapshot (new_image : Snapshot) (old_image : Option Snapshot) :
    Option (String × String × Int) :=
  if new_image.retrieval_type ≠ ARCHIVE_RETRIEVAL then none
  else if !optIntTruthy new_image.size || !optStrTruthy new_image.archive_id then none
  else
    match statusMapping (old_image.map fun o => lastPathSegment o.retrieve_status)
        (lastPathSegment new_image.retrieve_status) with
    | some rs => some (new_image.workflow_run, rs, new_image.size.getD 0)
    | none => none

/-- The classifier lifted to one stream record, following the dispatch of
`handle_archive_status_changed`. -/
def classifyRecord (r : StreamRecord) : Option (String × String × Int) :=
  if r.eventSource = "aws:dynamodb" then
    if r.eventName = "INSERT" then classifySnapshot r.newImage none
    else if r.eventName = "MODIFY" then classifySnapshot r.newImage r.oldImage
    else none
  else none

/-- Applying one classified contribution to the metric map. -/
def applyDelta (f : String → Metrics) (c : Option (String × String × Int)) :
    String → Metrics :=
  match c with
  | some (w, s, z) => setMetric f w (increaseMetric (f w) s z)
  | none => f

/-- Applying one classified contribution to the touched-key set. -/
def applyKeys (ks : List String) (c : Option (String × String × Int)) : List String :=
  match c with
  | some (w, _, _) => if w ∈ ks then ks else ks ++ [w]
  | none => ks

/-- The touched-key set as a `Finset`, one classified contribution at a time. -/
def applyKeysF (ks : Finset String) (c : Option (String × String × Int)) : Finset String :=
  match c with
  | some (w, _, _) => insert w ks
  | none => ks

/-- The `{status}_count` counter of a metric record, by status name. -/
def statusCount (m : Metrics) (s : String) : Int :=
  if s = StatusCode.REQUESTED then m.requested_count
  else if s = StatusCode.STAGED then m.staged_count
  else if s = StatusCode.DOWNLOADED then m.downloaded_count
  else 0

/-- The `{status}_size` counter of a metric record, by status name. -/
def statusSize (m : Metrics) (s : String) : Int :=
  if s = StatusCode.REQUESTED then m.requested_size
  else if s = StatusCode.STAGED then m.staged_size
  else if s = StatusCode.DOWNLOADED then m.downloaded_size
  else 0

/-- Pointwise order on the six counters. -/
def MetricsLe (m₁ m₂ : Metrics) : Prop :=
  m₁.requested_count ≤ m₂.requested_count ∧ m₁.requested_size ≤ m₂.requested_size ∧
  m₁.staged_count ≤ m₂.staged_count ∧ m₁.staged_size ≤ m₂.staged_size ∧
  m₁.downloaded_count ≤ m₂.downloaded_count ∧ m₁.downloaded_size ≤ m₂.downloaded_size

/-- All six counters non-negative. -/
def MetricsNonneg (m : Metrics) : Prop :=
  0 ≤ m.requested_count ∧ 0 ≤ m.requested_size ∧ 0 ≤ m.staged_count ∧ 0 ≤ m.staged_size ∧
  0 ≤ m.downloaded_count ∧ 0 ≤ m.downloaded_size

mutual

/-- Two Python values with identical canonical content: equal scalars,
elementwise-equivalent arrays, and objects that are the same map up to
key-insertion order (no duplicate keys, same cardinality, and every pair of
the first has an equivalent pair in the second). -/
def PyEquiv : PyJson → PyJson → Prop
  | .null, .null => True
  | .bool a, .bool b => a = b
  | .int a, .int b => a = b
  | .str a, .str b => a = b
  | .arr xs, .arr ys => PyEquivList xs ys
  | .obj a, .obj b =>
      (a.map Prod.fst).Nodup ∧ (b.map Prod.fst).Nodup ∧ a.length = b.length ∧ PyEquivMem a b
  | _, _ => False
termination_by x y => sizeOf x + sizeOf y

/-- Elementwise equivalence of two JSON arrays. -/
def PyEquivList : List PyJson → List PyJson → Prop
  | [], [] => True
  | x :: xs, y :: ys => PyEquiv x y ∧ PyEquivList xs ys
  | _, _ => False
termination_by x y => sizeOf x + sizeOf y

/-- Every key/value pair of the first object has an equivalent pair in the
second object. -/
def PyEquivMem : List (String × PyJson) → List (String × PyJson) → Prop
  | [], _ => True
  | kv :: rest, b => PyEquivFind kv b ∧ PyEquivMem rest b
termination_by x y => sizeOf x + sizeOf y

/-- Some pair of `b` has the same key as `kv` and an equivalent value. -/
def PyEquivFind : (String × PyJson) → List (String × PyJson) → Prop
  | _, [] => False
  | (k, v), (k2, v2) :: rest => (k = k2 ∧ PyEquiv v v2) ∨ PyEquivFind (k, v) rest
termination_by x y => sizeOf x + sizeOf y

end

theorem increase_metrics_char (st : ControllerState) (n : Snapshot) (o : Option Snapshot) :
    (increaseArchiveStatusMetricCounter st n o).metrics =
      applyDelta st.metrics (classifySnapshot n o) := by
  by_cases h1 : n.retrieval_type = ARCHIVE_RETRIEVAL
  · by_cases h2 : (!optIntTruthy n.size || !optStrTruthy n.archive_id) = true
    · simp [increaseArchiveStatusMetricCounter, classifySnapshot, applyDelta, h1, h2]
    · cases hm : statusMapping (o.map fun x => lastPathSegment x.retrieve_status)
        (lastPathSegment n.retrieve_status) <;>
        simp [increaseArchiveStatusMetricCounter, classifySnapshot, applyDelta, h1, h2, hm]
  · simp [increaseArchiveStatusMetricCounter, classifySnapshot, applyDelta, h1]

theorem increase_keys_char (st : ControllerState) (n : Snapshot) (o : Option Snapshot) :
    (increaseArchiveStatusMetricCounter st n o).keys =
      applyKeys st.keys (classifySnapshot n o) := by
  by_cases h1 : n.retrieval_type = ARCHIVE_RETRIEVAL
  · by_cases h2 : (!optIntTruthy n.size || !optStrTruthy n.archive_id) = true
    · simp [increaseArchiveStatusMetricCounter, classifySnapshot, applyKeys, h1, h2]
    · cases hm : statusMapping (o.map fun x => lastPathSegment x.retrieve_status)
        (lastPathSegment n.retrieve_status) <;>
        simp [increaseArchiveStatusMetricCounter, classifySnapshot, applyKeys, h1, h2, hm]
  · simp [increaseArchiveStatusMetricCounter, classifySnapshot, applyKeys, h1]

theorem processRecord_metrics (st : ControllerState) (r : StreamRecord) :
    (processRecord st r).metrics = applyDelta st.metrics (classifyRecord r) := by
  by_cases hs : r.eventSource = "aws:dynamodb" <;>
    by_cases hi : r.eventName = "INSERT" <;>
    by_cases hm : r.eventName = "MODIFY" <;>
    simp_all [processRecord, classifyRecord, increase_metrics_char, applyDelta]

theorem processRecord_keys (st : ControllerState) (r : StreamRecord) :
    (processRecord st r).keys = applyKeys st.keys (classifyRecord r) := by
  by_cases hs : r.eventSource = "aws:dynamodb" <;>
    by_cases hi : r.eventName = "INSERT" <;>
    by_cases hm : r.eventName = "MODIFY" <;>
    simp_all [processRecord, classifyRecord, increase_keys_char, applyKeys]

/-! ## Order-independence of the accumulation -/

theorem increaseMetric_comm (m : Metrics) (s₁ s₂ : String) (z₁ z₂ : Int) :
    increaseMetric (increaseMetric m s₁ z₁) s₂ z₂ =
      increaseMetric (increaseMetric m s₂ z₂) s₁ z₁ := by
  unfold increaseMetric
  split_ifs <;> simp_all [Metrics.mk.injEq] <;> omega

theorem applyDelta_comm (f : String → Metrics) (c₁ c₂ : Option (String × String × Int)) :
    applyDelta (applyDelta f c₁) c₂ = applyDelta (applyDelta f c₂) c₁ := by
  cases c₁ with
  | none => rfl
  | some p₁ =>
    cases c₂ with
    | none => rfl
    | some p₂ =>
      obtain ⟨w₁, s₁, z₁⟩ := p₁
      obtain ⟨w₂, s₂, z₂⟩ := p₂
      funext x
      simp only [applyDelta, setMetric]
      by_cases h12 : w₁ = w₂
      · subst h12
        by_cases hx : x = w₁ <;> simp [hx, increaseMetric_comm]
      · by_cases hx1 : x = w₁ <;> by_cases hx2 : x = w₂ <;> simp_all [setMetric]

theorem applyKeys_toFinset (ks : List String) (c : Option (String × String × Int)) :
    (applyKeys ks c).toFinset = applyKeysF ks.toFinset c := by
  cases c with
  | none => rfl
  | some p =>
    obtain ⟨w, s, z⟩ := p
    by_cases hw : w ∈ ks
    · simp [applyKeys, applyKeysF, hw, Finset.insert_eq_self.mpr (List.mem_toFinset.mpr hw)]
    · simp [applyKeys, applyKeysF, hw, List.toFinset_append, Finset.union_comm, Finset.insert_eq]

theorem applyKeysF_comm (ks : Finset String) (c₁ c₂ : Option (String × String × Int)) :
    applyKeysF (applyKeysF ks c₁) c₂ = applyKeysF (applyKeysF ks c₂) c₁ := by
  cases c₁ with
  | none => rfl
  | some p₁ =>
    cases c₂ with
    | none => rfl
    | some p₂ => exact Finset.Insert.comm _ _ _

theorem foldl_metrics (l : List StreamRecord) (st : ControllerState) :
    (l.foldl processRecord st).metrics =
      l.foldl (fun f r => applyDelta f (classifyRecord r)) st.metrics := by
  induction l generalizing st with
  | nil => rfl
  | cons r rest ih => simp [List.foldl_cons, ih, processRecord_metrics]

theorem foldl_keys_toFinset (l : List StreamRecord) (st : ControllerState) :
    (l.foldl processRecord st).keys.toFinset =
      l.foldl (fun ks r => applyKeysF ks (classifyRecord r)) st.keys.toFinset := by
  induction l generalizing st with
  | nil => rfl
  | cons r rest ih => simp [List.foldl_cons, ih, processRecord_keys, applyKeys_toFinset]

/-! ## Token length -/

theorem sha256Bytes_length (msg : List Nat) : (sha256Bytes msg).length = 32 := by
  simp [sha256Bytes, wordBytes]

theorem flatten_byteHex_length (l : List Nat) :
    ((l.map byteHex).flatten).length = 2 * l.length := by
  induction l with
  | nil => rfl
  | cons b rest ih =>
      simp only [List.map_cons, List.flatten_cons, List.length_append, List.length_cons, ih, byteHex]
      simp
      omega

theorem sha256HexDigest_data_length (msg : List Nat) :
    (sha256HexDigest msg).data.length = 64 := by
  show ((sha256Bytes msg).map byteHex).flatten.length = 64
  rw [flatten_byteHex_length, sha256Bytes_length]

theorem everyOtherChar_length : ∀ l : List Char, (everyOtherChar l).length = (l.length + 1) / 2
  | [] => by simp [everyOtherChar]
  | [_] => by simp [everyOtherChar]
  | _ :: _ :: rest => by
      simp only [everyOtherChar, List.length_cons, everyOtherChar_length rest]
      omega

theorem generateClientRequestToken_length (records : List PyJson) :
    (generateClientRequestToken records).length = 36 := by
  have h64 := sha256HexDigest_data_length (utf8Bytes (dumps (.arr records)))
  show (everyOtherChar (sha256HexDigest (utf8Bytes (dumps (.arr records)))).data ++
      (sha256HexDigest (utf8Bytes (dumps (.arr records)))).data.drop
        ((sha256HexDigest (utf8Bytes (dumps (.arr records)))).data.length - 4)).length = 36
  rw [List.length_append, everyOtherChar_length, List.length_drop, h64]

/-! ## The claims -/

/-- C8: for every batch, the idempotency token has length exactly 36, and is
literally every second character of the SHA-256 hex digest of the
canonically serialized batch followed by the digest's last four
characters. -/
theorem C8_token_is_36_chars (records : List PyJson) :
    (generateClientRequestToken records).length = 36 ∧
    generateClientRequestToken records =
      ⟨everyOtherChar (sha256HexDigest (utf8Bytes (dumps (.arr records)))).data ++
        (sha256HexDigest (utf8Bytes (dumps (.arr records)))).data.drop
          ((sha256HexDigest (utf8Bytes (dumps (.arr records)))).data.length - 4)⟩ :=
  ⟨generateClientRequestToken_length records, rfl⟩

/-- C7: the committer submits nothing for an empty batch, submits nothing
when every event was skipped (no workflow run touched, so the delta mapping
is empty), and the empty batch still gets a valid 36-character token. -/
theorem C7_empty_work_no_submission (records : List StreamRecord) (st : ControllerState)
    (token : String) :
    updateMetricQuery [] st token = CommitAction.noSubmission ∧
    (st.keys = [] → updateMetricQuery records st token = CommitAction.noSubmission) ∧
    (generateClientRequestToken []).length = 36 := by
  refine ⟨by simp [updateMetricQuery], fun hk => ?_, generateClientRequestToken_length []⟩
  by_cases hr : records = [] <;> simp [updateMetricQuery, buildTransactItems, hr, hk]

/-- C7 witness: the committer decision at concrete inputs. -/
theorem C7_empty_work_no_submission_witness :
    ((initialControllerState.keys = []) ∧
      updateMetricQuery [⟨"aws:dynamodb", "REMOVE", ⟨"w", "archive-retrieval", some 1, some "a", "s/requested"⟩, none⟩]
        initialControllerState "tok" = CommitAction.noSubmission) :=
  ⟨rfl, (C7_empty_work_no_submission
    [⟨"aws:dynamodb", "REMOVE", ⟨"w", "archive-retrieval", some 1, some "a", "s/requested"⟩, none⟩]
    initialControllerState "tok").2.1 rfl⟩

/-- C1: a counter delta is produced only for the three recognized
`(old_status, new_status)` transitions; any unrecognized pair (skipped-step,
backward, repeated, or anything else) leaves every per-workflow counter and
the touched-key set unchanged, and the transition table recognizes exactly
`(none, REQUESTED)`, `(REQUESTED, STAGED)`, `(STAGED, DOWNLOADED)`. -/
theorem C1_only_recognized_transitions_count (st : ControllerState) (new_image : Snapshot)
    (old_image : Option Snapshot)
    (h : statusMapping (old_image.map fun o => lastPathSegment o.retrieve_status)
        (lastPathSegment new_image.retrieve_status) = none) :
    ((increaseArchiveStatusMetricCounter st new_image old_image).metrics = st.metrics ∧
      (increaseArchiveStatusMetricCounter st new_image old_image).keys = st.keys) ∧
    (∀ oldS newS, (statusMapping oldS newS).isSome ↔
      (oldS = none ∧ newS = StatusCode.REQUESTED) ∨
      (oldS = some StatusCode.REQUESTED ∧ newS = StatusCode.STAGED) ∨
      (oldS = some StatusCode.STAGED ∧ newS = StatusCode.DOWNLOADED)) := by
  refine ⟨⟨?_, ?_⟩, ?_⟩
  · rw [increase_metrics_char]
    unfold classifySnapshot
    split_ifs <;> simp [h, applyDelta]
  · rw [increase_keys_char]
    unfold classifySnapshot
    split_ifs <;> simp [h, applyKeys]
  · intro oldS newS
    unfold statusMapping
    split_ifs <;> simp_all

/-- C1 witness: a REQUESTED → DOWNLOADED (skipped-step) modification leaves
the state's counters untouched. -/
theorem C1_only_recognized_transitions_count_witness :
    statusMapping ((some (⟨"w", "archive-retrieval", some 7, some "a", "x/requested"⟩ : Snapshot)).map
        fun o => lastPathSegment o.retrieve_status)
      (lastPathSegment (⟨"w", "archive-retrieval", some 7, some "a", "x/downloaded"⟩ : Snapshot).retrieve_status) = none ∧
    (increaseArchiveStatusMetricCounter initialControllerState
        ⟨"w", "archive-retrieval", some 7, some "a", "x/downloaded"⟩
        (some ⟨"w", "archive-retrieval", some 7, some "a", "x/requested"⟩)).metrics =
      initialControllerState.metrics :=
  ⟨by decide, (C1_only_recognized_transitions_count initialControllerState
    ⟨"w", "archive-retrieval", some 7, some "a", "x/downloaded"⟩
    (some ⟨"w", "archive-retrieval", some 7, some "a", "x/requested"⟩) (by decide)).1.1⟩

/-- C6: a snapshot whose record kind is not archive retrieval is skipped
silently and completely: the classifier returns the state unchanged (no
counter, no key, no log of any level), whatever its statuses, size or id. -/
theorem C6_non_archive_retrieval_silent_skip (st : ControllerState) (n : Snapshot)
    (o : Option Snapshot) (h : n.retrieval_type ≠ ARCHIVE_RETRIEVAL) :
    increaseArchiveStatusMetricCounter st n o = st := by
  simp [increaseArchiveStatusMetricCounter, h]

/-- C6 witness: an inventory-retrieval snapshot with an otherwise countable
REQUESTED transition contributes nothing. -/
theorem C6_non_archive_retrieval_silent_skip_witness :
    (⟨"w", "inventory-retrieval", some 7, some "a", "x/requested"⟩ : Snapshot).retrieval_type ≠
        ARCHIVE_RETRIEVAL ∧
    increaseArchiveStatusMetricCounter initialControllerState
        ⟨"w", "inventory-retrieval", some 7, some "a", "x/requested"⟩ none =
      initialControllerState :=
  ⟨by decide, C6_non_archive_retrieval_silent_skip initialControllerState
    ⟨"w", "inventory-retrieval", some 7, some "a", "x/requested"⟩ none (by decide)⟩

/-- C10: an archive-retrieval snapshot with size exactly `0` (or an empty
record identifier) takes the malformed path — Python truthiness, not
presence: the event is skipped, an error-level diagnostic naming the
snapshot is appended, and nothing else about the state changes, even when
the transition would have been a countable REQUESTED advance. -/
theorem C10_zero_size_treated_as_malformed (st : ControllerState) (n : Snapshot)
    (o : Option Snapshot) (harch : n.retrieval_type = ARCHIVE_RETRIEVAL)
    (h : n.size = some 0 ∨ n.archive_id = some "") :
    increaseArchiveStatusMetricCounter st n o =
      { st with logs := st.logs ++ [LogEvent.errorMetadataReadFailed n] } := by
  have hm : (!optIntTruthy n.size || !optStrTruthy n.archive_id) = true := by
    rcases h with h | h <;> simp [h, optIntTruthy, optStrTruthy]
  simp [increaseArchiveStatusMetricCounter, harch, hm]

/-- C10 witness: a size-0 archive-retrieval INSERT with status REQUESTED and
all fields present is error-skipped, not counted. -/
theorem C10_zero_size_treated_as_malformed_witness :
    (⟨"w", "archive-retrieval", some 0, some "a", "x/requested"⟩ : Snapshot).retrieval_type =
        ARCHIVE_RETRIEVAL ∧
    increaseArchiveStatusMetricCounter initialControllerState
        ⟨"w", "archive-retrieval", some 0, some "a", "x/requested"⟩ none =
      { initialControllerState with
        logs := [LogEvent.errorMetadataReadFailed ⟨"w", "archive-retrieval", some 0, some "a", "x/requested"⟩] } :=
  ⟨rfl, C10_zero_size_treated_as_malformed initialControllerState
    ⟨"w", "archive-retrieval", some 0, some "a", "x/requested"⟩ none rfl (Or.inl rfl)⟩

theorem statusMapping_range {oldS : Option String} {newS s : String}
    (h : statusMapping oldS newS = some s) :
    s = StatusCode.REQUESTED ∨ s = StatusCode.STAGED ∨ s = StatusCode.DOWNLOADED := by
  unfold statusMapping at h
  split_ifs at h <;> simp_all

/-- C4: for a classified event with counted status `s`, workflow run `w` and
size `z`, the accumulator adds exactly 1 to `w`'s `s`-count, exactly `z` to
`w`'s `s`-size, leaves the four counters of the other two statuses of `w`
unchanged, leaves every other workflow run's record unchanged, and every
workflow run's delta starts at the all-zero `_initial_metric`. -/
theorem C4_accumulator_adds_exactly_one_and_size (st : ControllerState) (n : Snapshot)
    (o : Option Snapshot) (s : String) (z : Int)
    (harch : n.retrieval_type = ARCHIVE_RETRIEVAL)
    (hsz : n.size = some z) (hz : z ≠ 0)
    (haid : optStrTruthy n.archive_id = true)
    (hmap : statusMapping (o.map fun x => lastPathSegment x.retrieve_status)
        (lastPathSegment n.retrieve_status) = some s) :
    (statusCount ((increaseArchiveStatusMetricCounter st n o).metrics n.workflow_run) s =
        statusCount (st.metrics n.workflow_run) s + 1) ∧
    (statusSize ((increaseArchiveStatusMetricCounter st n o).metrics n.workflow_run) s =
        statusSize (st.metrics n.workflow_run) s + z) ∧
    (∀ s2, (s2 = StatusCode.REQUESTED ∨ s2 = StatusCode.STAGED ∨ s2 = StatusCode.DOWNLOADED) →
      s2 ≠ s →
      statusCount ((increaseArchiveStatusMetricCounter st n o).metrics n.workflow_run) s2 =
          statusCount (st.metrics n.workflow_run) s2 ∧
      statusSize ((increaseArchiveStatusMetricCounter st n o).metrics n.workflow_run) s2 =
          statusSize (st.metrics n.workflow_run) s2) ∧
    (∀ w2, w2 ≠ n.workflow_run →
      (increaseArchiveStatusMetricCounter st n o).metrics w2 = st.metrics w2) ∧
    (∀ w, initialControllerState.metrics w = initialMetric) := by
  have htr : optIntTruthy n.size = true := by simp [optIntTruthy, hsz, hz]
  have hcls : classifySnapshot n o = some (n.workflow_run, s, z) := by
    simp [classifySnapshot, harch, htr, haid, hmap, hsz, optIntTruthy, hz]
  have hmet := increase_metrics_char st n o
  rw [hcls] at hmet
  have hw : (increaseArchiveStatusMetricCounter st n o).metrics n.workflow_run =
      increaseMetric (st.metrics n.workflow_run) s z := by
    rw [hmet]; simp [applyDelta, setMetric]
  refine ⟨?_, ?_, ?_, ?_, fun _ => rfl⟩
  · rw [hw]
    rcases statusMapping_range hmap with hs | hs | hs <;>
      subst hs <;> simp [increaseMetric, statusCount, StatusCode.REQUESTED,
        StatusCode.STAGED, StatusCode.DOWNLOADED]
  · rw [hw]
    rcases statusMapping_range hmap with hs | hs | hs <;>
      subst hs <;> simp [increaseMetric, statusSize, StatusCode.REQUESTED,
        StatusCode.STAGED, StatusCode.DOWNLOADED]
  · intro s2 hs2 hne
    rw [hw]
    rcases statusMapping_range hmap with hs | hs | hs <;> subst hs <;>
      rcases hs2 with h2 | h2 | h2 <;> subst h2 <;>
      simp_all [increaseMetric, statusCount, statusSize, StatusCode.REQUESTED,
        StatusCode.STAGED, StatusCode.DOWNLOADED]
  · intro w2 hne
    rw [hmet]
    simp [applyDelta, setMetric, hne]

/-- C4 witness: a single STAGED advance for workflow `"w"` of size 5. -/
theorem C4_accumulator_adds_exactly_one_and_size_witness :
    (statusMapping ((some (⟨"w", "archive-retrieval", some 5, some "a", "p/requested"⟩ : Snapshot)).map
        fun x => lastPathSegment x.retrieve_status)
      (lastPathSegment (⟨"w", "archive-retrieval", some 5, some "a", "p/staged"⟩ : Snapshot).retrieve_status) =
        some StatusCode.STAGED) ∧
    statusCount ((increaseArchiveStatusMetricCounter initialControllerState
        ⟨"w", "archive-retrieval", some 5, some "a", "p/staged"⟩
        (some ⟨"w", "archive-retrieval", some 5, some "a", "p/requested"⟩)).metrics "w")
      StatusCode.STAGED =
      statusCount (initialControllerState.metrics "w") StatusCode.STAGED + 1 :=
  ⟨by decide, (C4_accumulator_adds_exactly_one_and_size initialControllerState
    ⟨"w", "archive-retrieval", some 5, some "a", "p/staged"⟩
    (some ⟨"w", "archive-retrieval", some 5, some "a", "p/requested"⟩)
    StatusCode.STAGED 5 rfl rfl (by decide) (by decide) (by decide)).1⟩

/-- C3: folding a batch is order-independent: any permutation of the events
yields the same per-workflow counter map (pointwise) and the same set of
touched workflow runs. -/
theorem C3_accumulation_order_independent (l₁ l₂ : List StreamRecord) (hp : l₁.Perm l₂) :
    (∀ w, (handleArchiveStatusChanged l₁).metrics w =
      (handleArchiveStatusChanged l₂).metrics w) ∧
    (handleArchiveStatusChanged l₁).keys.toFinset =
      (handleArchiveStatusChanged l₂).keys.toFinset := by
  haveI : RightCommutative (fun f r => applyDelta f (classifyRecord r)) :=
    ⟨fun f r₁ r₂ => applyDelta_comm f (classifyRecord r₁) (classifyRecord r₂)⟩
  haveI : RightCommutative (fun ks r => applyKeysF ks (classifyRecord r)) :=
    ⟨fun ks r₁ r₂ => applyKeysF_comm ks (classifyRecord r₁) (classifyRecord r₂)⟩
  constructor
  · intro w
    unfold handleArchiveStatusChanged
    rw [foldl_metrics, foldl_metrics, hp.foldl_eq]
  · unfold handleArchiveStatusChanged
    rw [foldl_keys_toFinset, foldl_keys_toFinset, hp.foldl_eq]

/-- C3 witness: two INSERT events for two workflow runs, in both orders. -/
theorem C3_accumulation_order_independent_witness :
    ((handleArchiveStatusChanged
        [⟨"aws:dynamodb", "INSERT", ⟨"w1", "archive-retrieval", some 3, some "a1", "p/requested"⟩, none⟩,
         ⟨"aws:dynamodb", "INSERT", ⟨"w2", "archive-retrieval", some 4, some "a2", "p/requested"⟩, none⟩]).metrics "w1" =
      (handleArchiveStatusChanged
        [⟨"aws:dynamodb", "INSERT", ⟨"w2", "archive-retrieval", some 4, some "a2", "p/requested"⟩, none⟩,
         ⟨"aws:dynamodb", "INSERT", ⟨"w1", "archive-retrieval", some 3, some "a1", "p/requested"⟩, none⟩]).metrics "w1") ∧
    (handleArchiveStatusChanged
        [⟨"aws:dynamodb", "INSERT", ⟨"w1", "archive-retrieval", some 3, some "a1", "p/requested"⟩, none⟩,
         ⟨"aws:dynamodb", "INSERT", ⟨"w2", "archive-retrieval", some 4, some "a2", "p/requested"⟩, none⟩]).keys.toFinset =
      (handleArchiveStatusChanged
        [⟨"aws:dynamodb", "INSERT", ⟨"w2", "archive-retrieval", some 4, some "a2", "p/requested"⟩, none⟩,
         ⟨"aws:dynamodb", "INSERT", ⟨"w1", "archive-retrieval", some 3, some "a1", "p/requested"⟩, none⟩]).keys.toFinset :=
  ⟨(C3_accumulation_order_independent _ _ (List.Perm.swap _ _ [])).1 "w1",
   (C3_accumulation_order_independent _ _ (List.Perm.swap _ _ [])).2⟩

theorem increase_logs_extends (st : ControllerState) (n : Snapshot) (o : Option Snapshot)
    (x : LogEvent) (hx : x ∈ st.logs) :
    x ∈ (increaseArchiveStatusMetricCounter st n o).logs := by
  by_cases h1 : n.retrieval_type = ARCHIVE_RETRIEVAL
  · by_cases h2 : (!optIntTruthy n.size || !optStrTruthy n.archive_id) = true
    · simp [increaseArchiveStatusMetricCounter, h1, h2, hx]
    · cases hm : statusMapping (o.map fun s2 => lastPathSegment s2.retrieve_status)
        (lastPathSegment n.retrieve_status) <;>
        simp [increaseArchiveStatusMetricCounter, h1, h2, hm, hx]
  · simp [increaseArchiveStatusMetricCounter, h1, hx]

theorem processRecord_logs_extends (st : ControllerState) (r : StreamRecord)
    (x : LogEvent) (hx : x ∈ st.logs) : x ∈ (processRecord st r).logs := by
  unfold processRecord
  split_ifs <;> first | exact hx | exact increase_logs_extends _ _ _ x hx

theorem foldl_logs_extends (l : List StreamRecord) (st : ControllerState)
    (x : LogEvent) (hx : x ∈ st.logs) : x ∈ (l.foldl processRecord st).logs := by
  induction l generalizing st with
  | nil => exact hx
  | cons r rest ih => exact ih _ (processRecord_logs_extends st r x hx)

theorem foldl_metrics_keys_congr (l : List StreamRecord) (st₁ st₂ : ControllerState)
    (hm : st₁.metrics = st₂.metrics) (hk : st₁.keys = st₂.keys) :
    (l.foldl processRecord st₁).metrics = (l.foldl processRecord st₂).metrics ∧
    (l.foldl processRecord st₁).keys = (l.foldl processRecord st₂).keys := by
  induction l generalizing st₁ st₂ with
  | nil => exact ⟨hm, hk⟩
  | cons r rest ih =>
      exact ih _ _ (by rw [processRecord_metrics, processRecord_metrics, hm])
        (by rw [processRecord_keys, processRecord_keys, hk])

theorem processRecord_malformed (st : ControllerState) (e : StreamRecord)
    (hsrc : e.eventSource = "aws:dynamodb")
    (hname : e.eventName = "INSERT" ∨ e.eventName = "MODIFY")
    (harch : e.newImage.retrieval_type = ARCHIVE_RETRIEVAL)
    (hmal : (!optIntTruthy e.newImage.size || !optStrTruthy e.newImage.archive_id) = true) :
    processRecord st e =
      { st with logs := st.logs ++ [LogEvent.errorMetadataReadFailed e.newImage] } := by
  rcases hname with h | h <;>
    simp [processRecord, hsrc, h, increaseArchiveStatusMetricCounter, harch, hmal]

/-- C5: a batch holding one processed archive-retrieval event with a falsy
size or record identifier plus any other events produces exactly the
per-workflow counters and touched keys of the batch without it, and an
error-level diagnostic naming the offending snapshot is emitted; no failure
escapes (processing is total and continues over the rest of the batch). -/
theorem C5_malformed_event_skipped_batch_continues (pre post : List StreamRecord)
    (e : StreamRecord)
    (hsrc : e.eventSource = "aws:dynamodb")
    (hname : e.eventName = "INSERT" ∨ e.eventName = "MODIFY")
    (harch : e.newImage.retrieval_type = ARCHIVE_RETRIEVAL)
    (hmal : optIntTruthy e.newImage.size = false ∨ optStrTruthy e.newImage.archive_id = false) :
    (∀ w, (handleArchiveStatusChanged (pre ++ e :: post)).metrics w =
      (handleArchiveStatusChanged (pre ++ post)).metrics w) ∧
    (handleArchiveStatusChanged (pre ++ e :: post)).keys =
      (handleArchiveStatusChanged (pre ++ post)).keys ∧
    LogEvent.errorMetadataReadFailed e.newImage ∈
      (handleArchiveStatusChanged (pre ++ e :: post)).logs := by
  have hmal2 : (!optIntTruthy e.newImage.size || !optStrTruthy e.newImage.archive_id) = true := by
    rcases hmal with h | h <;> simp [h]
  unfold handleArchiveStatusChanged
  rw [List.foldl_append, List.foldl_append, List.foldl_cons]
  have hstep := processRecord_malformed (pre.foldl processRecord initialControllerState) e
    hsrc hname harch hmal2
  have hcong := foldl_metrics_keys_congr post
    (processRecord (pre.foldl processRecord initialControllerState) e)
    (pre.foldl processRecord initialControllerState)
    (by rw [hstep]) (by rw [hstep])
  refine ⟨fun w => by rw [hcong.1], hcong.2, ?_⟩
  apply foldl_logs_extends
  rw [hstep]
  simp

/-- C5 witness: a size-missing archive-retrieval INSERT between two valid
events changes nothing in the counters and leaves an error diagnostic. -/
theorem C5_malformed_event_skipped_batch_continues_witness :
    ((∀ w, (handleArchiveStatusChanged
        [⟨"aws:dynamodb", "INSERT", ⟨"w1", "archive-retrieval", some 3, some "a1", "p/requested"⟩, none⟩,
         ⟨"aws:dynamodb", "INSERT", ⟨"w1", "archive-retrieval", none, some "bad", "p/requested"⟩, none⟩,
         ⟨"aws:dynamodb", "INSERT", ⟨"w2", "archive-retrieval", some 4, some "a2", "p/requested"⟩, none⟩]).metrics w =
      (handleArchiveStatusChanged
        [⟨"aws:dynamodb", "INSERT", ⟨"w1", "archive-retrieval", some 3, some "a1", "p/requested"⟩, none⟩,
         ⟨"aws:dynamodb", "INSERT", ⟨"w2", "archive-retrieval", some 4, some "a2", "p/requested"⟩, none⟩]).metrics w) ∧
    LogEvent.errorMetadataReadFailed ⟨"w1", "archive-retrieval", none, some "bad", "p/requested"⟩ ∈
      (handleArchiveStatusChanged
        [⟨"aws:dynamodb", "INSERT", ⟨"w1", "archive-retrieval", some 3, some "a1", "p/requested"⟩, none⟩,
         ⟨"aws:dynamodb", "INSERT", ⟨"w1", "archive-retrieval", none, some "bad", "p/requested"⟩, none⟩,
         ⟨"aws:dynamodb", "INSERT", ⟨"w2", "archive-retrieval", some 4, some "a2", "p/requested"⟩, none⟩]).logs) :=
  ⟨(C5_malformed_event_skipped_batch_continues
      [⟨"aws:dynamodb", "INSERT", ⟨"w1", "archive-retrieval", some 3, some "a1", "p/requested"⟩, none⟩]
      [⟨"aws:dynamodb", "INSERT", ⟨"w2", "archive-retrieval", some 4, some "a2", "p/requested"⟩, none⟩]
      ⟨"aws:dynamodb", "INSERT", ⟨"w1", "archive-retrieval", none, some "bad", "p/requested"⟩, none⟩
      rfl (Or.inl rfl) rfl (Or.inl rfl)).1,
   (C5_malformed_event_skipped_batch_continues
      [⟨"aws:dynamodb", "INSERT", ⟨"w1", "archive-retrieval", some 3, some "a1", "p/requested"⟩, none⟩]
      [⟨"aws:dynamodb", "INSERT", ⟨"w2", "archive-retrieval", some 4, some "a2", "p/requested"⟩, none⟩]
      ⟨"aws:dynamodb", "INSERT", ⟨"w1", "archive-retrieval", none, some "bad", "p/requested"⟩, none⟩
      rfl (Or.inl rfl) rfl (Or.inl rfl)).2.2⟩

theorem metricsLe_refl (m : Metrics) : MetricsLe m m := by
  unfold MetricsLe; omega

theorem metricsLe_trans {m₁ m₂ m₃ : Metrics} (h1 : MetricsLe m₁ m₂) (h2 : MetricsLe m₂ m₃) :
    MetricsLe m₁ m₃ := by
  unfold MetricsLe at h1 h2 ⊢; omega

theorem increaseMetric_le (m : Metrics) (s : String) (z : Int) (hz : 0 ≤ z) :
    MetricsLe m (increaseMetric m s z) := by
  unfold increaseMetric MetricsLe
  split_ifs <;> simp <;> omega

theorem classifySnapshot_size {n : Snapshot} {o : Option Snapshot} {w s : String} {z : Int}
    (h : classifySnapshot n o = some (w, s, z)) : z = n.size.getD 0 := by
  unfold classifySnapshot at h
  split_ifs at h
  cases hm : statusMapping (o.map fun x => lastPathSegment x.retrieve_status)
      (lastPathSegment n.retrieve_status) <;> rw [hm] at h <;> simp_all

theorem classifyRecord_size {r : StreamRecord} {w s : String} {z : Int}
    (h : classifyRecord r = some (w, s, z)) : z = r.newImage.size.getD 0 := by
  unfold classifyRecord at h
  split_ifs at h <;> exact classifySnapshot_size h

theorem processRecord_metrics_le (st : ControllerState) (r : StreamRecord)
    (hz : ∀ w2 s z, classifyRecord r = some (w2, s, z) → 0 ≤ z) (w : String) :
    MetricsLe (st.metrics w) ((processRecord st r).metrics w) := by
  rw [processRecord_metrics]
  cases hc : classifyRecord r with
  | none => exact metricsLe_refl _
  | some p =>
    obtain ⟨w2, s, z⟩ := p
    have hz2 : 0 ≤ z := hz w2 s z hc
    by_cases hw : w = w2
    · subst hw
      simp only [applyDelta, setMetric, if_pos rfl]
      exact increaseMetric_le _ _ _ hz2
    · simp only [applyDelta, setMetric, if_neg hw]
      exact metricsLe_refl _

theorem foldl_metrics_le (l : List StreamRecord) (st : ControllerState)
    (h : ∀ r ∈ l, ∀ w2 s z, classifyRecord r = some (w2, s, z) → 0 ≤ z) (w : String) :
    MetricsLe (st.metrics w) ((l.foldl processRecord st).metrics w) := by
  induction l generalizing st with
  | nil => exact metricsLe_refl _
  | cons r rest ih =>
    exact metricsLe_trans (processRecord_metrics_le st r (h r (by simp)) w)
      (ih _ (fun r2 hr2 => h r2 (by simp [hr2])))

/-- C9: counters are increments-only.  When every countable snapshot of the
batch carries a non-negative size — events the classifier skips are
unconstrained — each classification step can only grow each of the six
counters of every workflow run, and along every prefix of the batch all
counters stay non-negative and below their final values. -/
theorem C9_counters_increment_only (records : List StreamRecord)
    (h : ∀ r ∈ records, ∀ w2 s z, classifyRecord r = some (w2, s, z) → 0 ≤ z) :
    (∀ st r, r ∈ records → ∀ w, MetricsLe (st.metrics w) ((processRecord st r).metrics w)) ∧
    (∀ l₁ l₂, records = l₁ ++ l₂ → ∀ w,
      MetricsNonneg ((handleArchiveStatusChanged l₁).metrics w) ∧
      MetricsLe ((handleArchiveStatusChanged l₁).metrics w)
        ((handleArchiveStatusChanged records).metrics w)) := by
  constructor
  · exact fun st r hr w => processRecord_metrics_le st r (h r hr) w
  · intro l₁ l₂ hsplit w
    subst hsplit
    have h₁ : ∀ r ∈ l₁, ∀ w2 s z, classifyRecord r = some (w2, s, z) → 0 ≤ z :=
      fun r hr => h r (List.mem_append_left _ hr)
    have h₂ : ∀ r ∈ l₂, ∀ w2 s z, classifyRecord r = some (w2, s, z) → 0 ≤ z :=
      fun r hr => h r (List.mem_append_right _ hr)
    constructor
    · have hle := foldl_metrics_le l₁ initialControllerState h₁ w
      unfold MetricsLe at hle
      unfold MetricsNonneg
      simpa [handleArchiveStatusChanged, initialControllerState, initialMetric] using hle
    · unfold handleArchiveStatusChanged
      rw [List.foldl_append]
      exact foldl_metrics_le l₂ _ h₂ w

/-- C9 witness: a valid REQUESTED insert of size 3 together with a skipped
non-archive-retrieval event of negative size: the countable snapshots are
non-negative, and every counter of workflow `"w1"` stays non-negative. -/
theorem C9_counters_increment_only_witness :
    (∀ r ∈ [(⟨"aws:dynamodb", "INSERT",
        ⟨"w1", "archive-retrieval", some 3, some "a1", "p/requested"⟩, none⟩ : StreamRecord),
      ⟨"aws:dynamodb", "INSERT",
        ⟨"w1", "inventory-retrieval", some (-5), some "a2", "p/requested"⟩, none⟩],
      ∀ w2 s z, classifyRecord r = some (w2, s, z) → 0 ≤ z) ∧
    MetricsNonneg ((handleArchiveStatusChanged
      [⟨"aws:dynamodb", "INSERT",
        ⟨"w1", "archive-retrieval", some 3, some "a1", "p/requested"⟩, none⟩,
       ⟨"aws:dynamodb", "INSERT",
        ⟨"w1", "inventory-retrieval", some (-5), some "a2", "p/requested"⟩, none⟩]).metrics "w1") := by
  have hcls1 : classifyRecord ⟨"aws:dynamodb", "INSERT",
      ⟨"w1", "archive-retrieval", some 3, some "a1", "p/requested"⟩, none⟩ =
      some ("w1", StatusCode.REQUESTED, 3) := by decide
  have hcls2 : classifyRecord ⟨"aws:dynamodb", "INSERT",
      ⟨"w1", "inventory-retrieval", some (-5), some "a2", "p/requested"⟩, none⟩ = none := by
    decide
  have hsz : ∀ r ∈ [(⟨"aws:dynamodb", "INSERT",
      ⟨"w1", "archive-retrieval", some 3, some "a1", "p/requested"⟩, none⟩ : StreamRecord),
      ⟨"aws:dynamodb", "INSERT",
        ⟨"w1", "inventory-retrieval", some (-5), some "a2", "p/requested"⟩, none⟩],
      ∀ w2 s z, classifyRecord r = some (w2, s, z) → 0 ≤ z := by
    intro r hr w2 s z hc
    rcases List.mem_cons.mp hr with rfl | hr
    · rw [hcls1] at hc
      simp only [Option.some.injEq, Prod.mk.injEq] at hc
      omega
    · rcases List.mem_singleton.mp hr with rfl
      rw [hcls2] at hc
      simp at hc
  exact ⟨hsz, ((C9_counters_increment_only _ hsz).2 _ [] (List.append_nil _).symm "w1").1⟩

/-! ## Canonical serialization is insertion-order independent -/

theorem dumpsList_eq_map (l : List PyJson) : dumpsList l = l.map dumps := by
  induction l with
  | nil => simp [dumpsList]
  | cons x xs ih => simp [dumpsList, ih]

theorem dumpsPairs_eq_map (l : List (String × PyJson)) :
    dumpsPairs l = l.map (fun kv => (kv.1, dumps kv.2)) := by
  induction l with
  | nil => simp [dumpsPairs]
  | cons kv rest ih =>
    obtain ⟨k, v⟩ := kv
    simp [dumpsPairs, ih]

theorem keyLe_trans : ∀ a b c : String × String, keyLe a b → keyLe b c → keyLe a c := by
  intro a b c hab hbc
  simp only [keyLe, decide_eq_true_eq] at hab hbc ⊢
  exact le_trans hab hbc

theorem keyLe_total : ∀ a b : String × String, keyLe a b || keyLe b a := by
  intro a b
  simp only [keyLe, Bool.or_eq_true, decide_eq_true_eq]
  exact le_total a.1 b.1

theorem mergeSort_keyLe_strict_sorted (l : List (String × String))
    (hnd : (l.map Prod.fst).Nodup) :
    (l.mergeSort keyLe).Pairwise (fun a b => a.1 < b.1) := by
  have hle : (l.mergeSort keyLe).Pairwise (fun a b => a.1 ≤ b.1) :=
    (List.sorted_mergeSort keyLe_trans keyLe_total l).imp
      (fun hab => by simpa [keyLe, decide_eq_true_eq] using hab)
  have hnd2 : ((l.mergeSort keyLe).map Prod.fst).Nodup :=
    (((List.mergeSort_perm l keyLe).map Prod.fst).nodup_iff).mpr hnd
  have hne : (l.mergeSort keyLe).Pairwise (fun a b => a.1 ≠ b.1) :=
    List.pairwise_map.mp hnd2
  exact (hle.and hne).imp (fun hab => lt_of_le_of_ne hab.1 hab.2)

theorem mergeSort_keyLe_eq_of_perm (l₁ l₂ : List (String × String))
    (hp : l₁.Perm l₂) (hnd : (l₁.map Prod.fst).Nodup) :
    l₁.mergeSort keyLe = l₂.mergeSort keyLe := by
  haveI : IsAntisymm (String × String) (fun a b => a.1 < b.1) :=
    ⟨fun a b h1 h2 => absurd h1 (lt_asymm h2)⟩
  have hnd2 : (l₂.map Prod.fst).Nodup := ((hp.map Prod.fst).nodup_iff).mp hnd
  exact List.eq_of_perm_of_sorted
    ((List.mergeSort_perm l₁ keyLe).trans (hp.trans (List.mergeSort_perm l₂ keyLe).symm))
    (mergeSort_keyLe_strict_sorted l₁ hnd) (mergeSort_keyLe_strict_sorted l₂ hnd2)

theorem pyEquivFind_exists {kv : String × PyJson} {b : List (String × PyJson)}
    (h : PyEquivFind kv b) : ∃ kv2 ∈ b, kv.1 = kv2.1 ∧ PyEquiv kv.2 kv2.2 := by
  induction b with
  | nil =>
    obtain ⟨k, v⟩ := kv
    simp [PyEquivFind] at h
  | cons kv2 rest ih =>
    obtain ⟨k, v⟩ := kv
    obtain ⟨k2, v2⟩ := kv2
    rw [PyEquivFind] at h
    rcases h with ⟨hk, hv⟩ | h
    · exact ⟨(k2, v2), by simp, hk, hv⟩
    · obtain ⟨kv3, hmem, hk, hv⟩ := ih h
      exact ⟨kv3, by simp [hmem], hk, hv⟩

theorem pyEquivMem_forall {a b : List (String × PyJson)} (h : PyEquivMem a b) :
    ∀ kv ∈ a, PyEquivFind kv b := by
  induction a with
  | nil => simp
  | cons kv rest ih =>
    rw [PyEquivMem] at h
    intro kv2 hkv2
    rcases List.mem_cons.mp hkv2 with rfl | hmem
    · exact h.1
    · exact ih h.2 kv2 hmem

theorem dumps_eq_of_pyEquiv_bounded :
    ∀ N, ∀ a b : PyJson, sizeOf a ≤ N → PyEquiv a b → dumps a = dumps b := by
  intro N
  induction N with
  | zero =>
    intro a b hsz _
    exfalso
    cases a <;> simp at hsz
  | succ N ih =>
    intro a b hsz h
    cases a with
    | null => cases b <;> simp_all [PyEquiv]
    | bool x => cases b <;> simp_all [PyEquiv]
    | int n => cases b <;> simp_all [PyEquiv]
    | str s => cases b <;> simp_all [PyEquiv]
    | arr xs =>
      cases b with
      | null => simp [PyEquiv] at h
      | bool y => simp [PyEquiv] at h
      | int y => simp [PyEquiv] at h
      | str y => simp [PyEquiv] at h
      | obj kvs2 => simp [PyEquiv] at h
      | arr ys =>
        rw [PyEquiv] at h
        have hb : ∀ x ∈ xs, sizeOf x ≤ N := by
          intro x hx
          have h1 := List.sizeOf_lt_of_mem hx
          simp only [PyJson.arr.sizeOf_spec] at hsz
          omega
        have hlist : ∀ xs2 ys2 : List PyJson, (∀ x ∈ xs2, sizeOf x ≤ N) →
            PyEquivList xs2 ys2 → dumpsList xs2 = dumpsList ys2 := by
          intro xs2
          induction xs2 with
          | nil =>
            intro ys2 _ hl
            cases ys2 with
            | nil => rfl
            | cons y ys => simp [PyEquivList] at hl
          | cons x xs2 ihx =>
            intro ys2 hb2 hl
            cases ys2 with
            | nil => simp [PyEquivList] at hl
            | cons y ys =>
              rw [PyEquivList] at hl
              rw [dumpsList, dumpsList, ih x y (hb2 x (by simp)) hl.1,
                ihx ys (fun x2 hx2 => hb2 x2 (by simp [hx2])) hl.2]
        simp only [dumps]
        rw [hlist xs ys hb h]
    | obj kvs =>
      cases b with
      | null => simp [PyEquiv] at h
      | bool y => simp [PyEquiv] at h
      | int y => simp [PyEquiv] at h
      | str y => simp [PyEquiv] at h
      | arr ys => simp [PyEquiv] at h
      | obj kvs2 =>
        rw [PyEquiv] at h
        obtain ⟨hna, hnb, hlen, hmem⟩ := h
        have hval : ∀ kv ∈ kvs, sizeOf kv.2 ≤ N := by
          intro kv hkv
          have h1 := List.sizeOf_lt_of_mem hkv
          obtain ⟨k, v⟩ := kv
          simp only [PyJson.obj.sizeOf_spec] at hsz
          simp only [Prod.mk.sizeOf_spec] at h1
          show sizeOf v ≤ N
          omega
        have hperm : (dumpsPairs kvs).Perm (dumpsPairs kvs2) := by
          rw [dumpsPairs_eq_map, dumpsPairs_eq_map]
          have hsub : kvs.map (fun kv => (kv.1, dumps kv.2)) ⊆
              kvs2.map (fun kv => (kv.1, dumps kv.2)) := by
            intro p hp
            obtain ⟨kv, hkv, rfl⟩ := List.mem_map.mp hp
            obtain ⟨kv2, hkv2, hk, hv⟩ := pyEquivFind_exists (pyEquivMem_forall hmem kv hkv)
            have hd : dumps kv.2 = dumps kv2.2 := ih kv.2 kv2.2 (hval kv hkv) hv
            refine List.mem_map.mpr ⟨kv2, hkv2, ?_⟩
            show (kv2.1, dumps kv2.2) = (kv.1, dumps kv.2)
            rw [← hk, ← hd]
          have hnodup : (kvs.map (fun kv => (kv.1, dumps kv.2))).Nodup := by
            apply List.Nodup.of_map Prod.fst
            have hcomp : (kvs.map (fun kv => (kv.1, dumps kv.2))).map Prod.fst =
                kvs.map Prod.fst := by
              simp [List.map_map, Function.comp]
            rw [hcomp]
            exact hna
          have hlen2 : (kvs2.map (fun kv => (kv.1, dumps kv.2))).length ≤
              (kvs.map (fun kv => (kv.1, dumps kv.2))).length := by
            simp [hlen]
          exact (hnodup.subperm hsub).perm_of_length_le hlen2
        have hkeys : ((dumpsPairs kvs).map Prod.fst).Nodup := by
          rw [dumpsPairs_eq_map]
          have hcomp : (kvs.map (fun kv => (kv.1, dumps kv.2))).map Prod.fst =
              kvs.map Prod.fst := by
            simp [List.map_map, Function.comp]
          rw [hcomp]
          exact hna
        simp only [dumps]
        rw [mergeSort_keyLe_eq_of_perm _ _ hperm hkeys]

theorem dumps_eq_of_pyEquiv (a b : PyJson) (h : PyEquiv a b) : dumps a = dumps b :=
  dumps_eq_of_pyEquiv_bounded (sizeOf a) a b le_rfl h

/-- C2: the idempotency token generator is deterministic: two calls on the
same batch give the same token, and any two batches with identical canonical
content — the same maps up to key-insertion order — get equal tokens. -/
theorem C2_token_deterministic_canonical (r₁ r₂ : List PyJson)
    (h : PyEquivList r₁ r₂) :
    generateClientRequestToken r₁ = generateClientRequestToken r₁ ∧
    generateClientRequestToken r₁ = generateClientRequestToken r₂ := by
  refine ⟨rfl, ?_⟩
  have harr : PyEquiv (.arr r₁) (.arr r₂) := by rw [PyEquiv]; exact h
  have hd : dumps (.arr r₁) = dumps (.arr r₂) := dumps_eq_of_pyEquiv _ _ harr
  simp only [generateClientRequestToken, hd]

/-- C2 witness: one record whose map carries its two keys in the two
opposite insertion orders; the tokens agree. -/
theorem C2_token_deterministic_canonical_witness :
    PyEquivList [PyJson.obj [("b", PyJson.int 2), ("a", PyJson.str "x")]]
      [PyJson.obj [("a", PyJson.str "x"), ("b", PyJson.int 2)]] ∧
    generateClientRequestToken [PyJson.obj [("b", PyJson.int 2), ("a", PyJson.str "x")]] =
      generateClientRequestToken [PyJson.obj [("a", PyJson.str "x"), ("b", PyJson.int 2)]] := by
  have h : PyEquivList [PyJson.obj [("b", PyJson.int 2), ("a", PyJson.str "x")]]
      [PyJson.obj [("a", PyJson.str "x"), ("b", PyJson.int 2)]] := by
    simp [PyEquivList, PyEquiv, PyEquivMem, PyEquivFind]
  exact ⟨h, (C2_token_deterministic_canonical _ _ h).2⟩
